import Mathlib

/-!
Shallow embedding of the two reporting scripts of the qualhook repository:

* `scripts/generate_test_dashboard.py` — the Dashboard Renderer
* `scripts/visualize_test_trends.py` — the Trend Visualizer & Summarizer

Modelling conventions:

* Python numbers appearing in the metrics JSON are modelled as `ℚ`
  (scores, coverages, durations) and `ℤ` (counts).  All concrete values
  exercised by the claims are exactly representable, so `ℚ` agrees with
  Python float arithmetic on them.
* A JSON dictionary field that the code reads with `d['k']` (direct
  subscript, raising `KeyError` when absent) is modelled as an `Option`
  field read through `getKey`, which returns `Except.error "KeyError"`
  when the field is `none`.  A field read with `d.get('k', default)` is
  modelled as an `Option` field read with `Option.getD`.  Intermediate
  dictionaries (e.g. `metrics['metrics']`) and fields whose absence no
  claim probes (e.g. `pkg['package']`) are modelled as plain structure
  fields.
* String formatting into HTML/markdown is modelled by returning the
  interpolated data (rows as tuples/records, recommendations as an
  inductive) instead of the surrounding literal markup, which carries no
  information relevant to any claim.
* Python's `sorted(xs, key=k, reverse=True)` is a stable descending
  sort; `List.insertionSort (fun a b => k b ≤ k a)` is extensionally the
  same function (both are the unique stable sort for that preorder).
-/

namespace Qualhook

/-- Direct dictionary subscript `d['k']`: raises `KeyError` when the key
is absent, modelled as `Except.error "KeyError"`. -/
def getKey {α : Type} (o : Option α) : Except String α :=
  match o with
  | some v => Except.ok v
  | none => Except.error "KeyError"

/-- One element of the trend-history JSON array.  Every field is read by
the scripts either directly (`timestamp`) or with `.get(k, 0)`. -/
structure TrendPoint where
  timestamp : Option String
  coverage : Option ℚ
  quality_score : Option ℚ
  test_count : Option ℚ
  flaky_count : Option ℤ
  deriving DecidableEq, Inhabited

/-- One entry of `metrics['metrics']['coverage']['by_package']`.
`package`, `coverage` and `test_files` are read by direct subscript;
`error` is read with `pkg.get('error')` (default `None`, falsy). -/
structure PackageCov where
  package : String
  coverage : ℚ
  test_files : ℤ
  error : Option Bool
  deriving DecidableEq

/-- The `metrics['metrics']['test_types']` dictionary.  All six counts
are read by direct subscript in the dashboard. -/
structure TestTypes where
  unit_test_files : Option ℤ
  integration_test_files : Option ℤ
  e2e_test_files : Option ℤ
  benchmark_files : Option ℤ
  example_files : Option ℤ
  total_test_files : Option ℤ
  deriving DecidableEq

/-- One entry of `flakiness['flaky_tests']`. -/
structure FlakyTest where
  test : String
  package : String
  deriving DecidableEq

/-- The `metrics['metrics']['flakiness']` dictionary. -/
structure Flakiness where
  flaky_test_count : Option ℤ
  flaky_tests : Option (List FlakyTest)
  deriving DecidableEq

/-- One entry of `execution_time['slowest_tests']`. -/
structure SlowTest where
  name : String
  package : String
  duration : ℚ
  deriving DecidableEq

/-- The `metrics['metrics']['execution_time']` dictionary; the code reads
`execution_time.get('slowest_tests', [])`. -/
structure ExecutionTime where
  slowest_tests : Option (List SlowTest)
  deriving DecidableEq

/-- The `metrics['metrics']['coverage']` dictionary. -/
structure Coverage where
  average : Option ℚ
  by_package : Option (List PackageCov)
  deriving DecidableEq

/-- The `metrics['metrics']['quality_score']` dictionary. -/
structure QualityScore where
  overall : Option ℚ
  deriving DecidableEq

/-- The `metrics['metrics']` dictionary of the MetricsSnapshot. -/
structure Metrics where
  coverage : Coverage
  quality_score : QualityScore
  test_types : TestTypes
  flakiness : Flakiness
  execution_time : ExecutionTime
  deriving DecidableEq

/-- Python slice `l[-n:]`: the last `n` elements (all of `l` when it is
shorter than `n`). -/
def lastN {α : Type} (n : Nat) (l : List α) : List α :=
  l.drop (l.length - n)

/-- The `get_score_color` function of `generate_test_dashboard.py`
(lines 269-276): green for scores at least 80, orange for scores at
least 60, red otherwise. -/
def get_score_color (score : ℚ) : String :=
  if score ≥ 80 then "#4caf50"
  else if score ≥ 60 then "#ff9800"
  else "#f44336"

/-- The `get_flaky_class` function of `generate_test_dashboard.py`
(lines 278-285). -/
def get_flaky_class (count : ℤ) : String :=
  if count = 0 then "success"
  else if count ≤ 2 then "warning"
  else "error"

/-- Python `s.replace('github.com/bebsworthy/qualhook/', '')`: strips
every occurrence of the repository-URL prefix. -/
def stripRepoUrl (s : String) : String :=
  s.replace "github.com/bebsworthy/qualhook/" ""

/-- The data interpolated into one row of the package-coverage table by
`generate_package_rows` (lines 294-300). -/
structure PackageRow where
  package_display : String
  color : String
  coverage : ℚ
  error_flagged : Bool
  test_files : ℤ
  deriving DecidableEq

/-- The `generate_package_rows` function (lines 287-301):
`sorted(packages, key=lambda x: x['coverage'], reverse=True)[:10]`,
then one row per selected package.  `insertionSort` with the descending
relation is the stable descending sort, extensionally equal to Python's
`sorted(..., reverse=True)`. -/
def generate_package_rows (packages : List PackageCov) : List PackageRow :=
  ((packages.insertionSort fun a b => b.coverage ≤ a.coverage).take 10).map fun pkg =>
    { package_display := stripRepoUrl pkg.package
      color := get_score_color pkg.coverage
      coverage := pkg.coverage
      error_flagged := pkg.error.getD false
      test_files := pkg.test_files }

/-- The `generate_test_type_rows` function (lines 303-320): builds the
`types` list by direct subscript on the five per-type counts, in source
order, so the first absent key raises `KeyError`. -/
def generate_test_type_rows (test_types : TestTypes) : Except String (List (String × ℤ)) := do
  let u ← getKey test_types.unit_test_files
  let i ← getKey test_types.integration_test_files
  let e ← getKey test_types.e2e_test_files
  let b ← getKey test_types.benchmark_files
  let x ← getKey test_types.example_files
  return [("Unit Tests", u), ("Integration Tests", i), ("E2E Tests", e),
          ("Benchmarks", b), ("Examples", x)]

/-- The `generate_flaky_tests_section` function (lines 322-351): empty
section (`none`) when the flaky count is 0, otherwise up to 10 rows of
(test, prefix-stripped package). -/
def generate_flaky_tests_section (flakiness : Flakiness) :
    Except String (Option (List (String × String))) := do
  let count ← getKey flakiness.flaky_test_count
  if count = 0 then
    return none
  else
    let tests ← getKey flakiness.flaky_tests
    return some ((tests.take 10).map fun t => (t.test, stripRepoUrl t.package))

/-- The `generate_slow_tests_section` function (lines 353-387): empty
section (`none`) when `slowest_tests` is absent or empty, otherwise up
to 10 rows of (name, prefix-stripped package, duration color). -/
def generate_slow_tests_section (execution_time : ExecutionTime) :
    Option (List (String × String × String)) :=
  let slowest := execution_time.slowest_tests.getD []
  if slowest.isEmpty then none
  else some ((slowest.take 10).map fun t =>
    (t.name, stripRepoUrl t.package,
      if t.duration > 1 then "#f44336"
      else if t.duration > (1 : ℚ)/2 then "#ff9800" else "#4caf50"))

/-- The expression `t['timestamp'][:10]` of line 29 of
`generate_test_dashboard.py` for one trend point: a direct subscript
(raising when absent) followed by a 10-character slice. -/
def labelOf (t : TrendPoint) : Except String String := do
  let ts ← getKey t.timestamp
  return ts.take 10

/-- Line 29 of `generate_test_dashboard.py`:
`trend_labels = [t['timestamp'][:10] for t in trends[-10:]]`. -/
def trend_labels (trends : List TrendPoint) : Except String (List String) :=
  (lastN 10 trends).mapM labelOf

/-- Line 30: `coverage_trend = [t.get('coverage', 0) for t in trends[-10:]]`. -/
def coverage_trend_series (trends : List TrendPoint) : List ℚ :=
  (lastN 10 trends).map fun t => t.coverage.getD 0

/-- Line 31: `quality_trend = [t.get('quality_score', 0) for t in trends[-10:]]`. -/
def quality_trend_series (trends : List TrendPoint) : List ℚ :=
  (lastN 10 trends).map fun t => t.quality_score.getD 0

/-- The data interpolated into the HTML document by `generate_dashboard`
(lines 12-267): headline tiles, their colors, the two chart arrays and
the four table/section bodies. -/
structure DashboardData where
  coverage : ℚ
  quality_score : ℚ
  test_count : ℤ
  flaky_count : ℤ
  quality_score_color : String
  coverage_color : String
  flaky_class : String
  trend_labels : List String
  coverage_trend : List ℚ
  quality_trend : List ℚ
  package_rows : List PackageRow
  test_type_rows : List (String × ℤ)
  flaky_section : Option (List (String × String))
  slow_section : Option (List (String × String × String))
  deriving DecidableEq

/-- The `generate_dashboard` function (lines 12-267), with the reads in
source order: the four headline lookups (lines 23-26, direct subscript),
the three trend arrays (lines 29-31), then the interpolations of the
HTML template in textual order (lines 80-201). -/
def generate_dashboard (metrics : Metrics) (trends : List TrendPoint) :
    Except String DashboardData := do
  let coverage ← getKey metrics.coverage.average
  let quality_score ← getKey metrics.quality_score.overall
  let test_count ← getKey metrics.test_types.total_test_files
  let flaky_count ← getKey metrics.flakiness.flaky_test_count
  let labels ← trend_labels trends
  let cov_series := coverage_trend_series trends
  let qual_series := quality_trend_series trends
  let by_package ← getKey metrics.coverage.by_package
  let type_rows ← generate_test_type_rows metrics.test_types
  let flaky_sec ← generate_flaky_tests_section metrics.flakiness
  return { coverage := coverage
           quality_score := quality_score
           test_count := test_count
           flaky_count := flaky_count
           quality_score_color := get_score_color quality_score
           coverage_color := get_score_color coverage
           flaky_class := get_flaky_class flaky_count
           trend_labels := labels
           coverage_trend := cov_series
           quality_trend := qual_series
           package_rows := generate_package_rows by_package
           test_type_rows := type_rows
           flaky_section := flaky_sec
           slow_section := generate_slow_tests_section metrics.execution_time }

/-- One line of the `## Recommendations` section of the markdown summary
(lines 133-146 of `visualize_test_trends.py`), carrying the interpolated
flaky count for the `Fix {max_flaky} flaky tests` line. -/
inductive Recommendation where
  | lowCoverage
  | lowQuality
  | fixFlaky (n : ℤ)
  | coverageDeclining
  | qualityDeclining
  deriving DecidableEq

/-- The data interpolated into the markdown summary report written by
`generate_summary_stats` (lines 112-131). -/
structure SummaryStats where
  avg_coverage : ℚ
  avg_quality : ℚ
  max_flaky : ℤ
  coverage_trend : ℚ
  quality_trend : ℚ
  latest_coverage : ℚ
  latest_quality : ℚ
  latest_flaky : ℤ
  recommendations : List Recommendation
  deriving DecidableEq

/-- The `generate_summary_stats` function of `visualize_test_trends.py`
(lines 94-153).  Returns `none` when fewer than 2 trend points exist
(the early `return` on line 98: no markdown file is written), otherwise
the contents of the written report.  `trends[-1]` and `trends[-2]` are
`trends.getLast?` and `trends.dropLast.getLast?`; both defaults are
unreachable under the length guard. -/
def generate_summary_stats (trends : List TrendPoint) : Option SummaryStats :=
  if trends.length < 2 then none
  else
    let recent := lastN 7 trends
    let avg_coverage := ((recent.map fun t => t.coverage.getD 0).sum) / (recent.length : ℚ)
    let avg_quality := ((recent.map fun t => t.quality_score.getD 0).sum) / (recent.length : ℚ)
    let max_flaky := (((recent.map fun t => t.flaky_count.getD 0).max?).getD 0 : ℤ)
    let last1 := (trends.getLast?).getD default
    let last2 := ((trends.dropLast).getLast?).getD default
    let coverage_trend := last1.coverage.getD 0 - last2.coverage.getD 0
    let quality_trend := last1.quality_score.getD 0 - last2.quality_score.getD 0
    let recommendations :=
      (if avg_coverage < 70 then [Recommendation.lowCoverage] else []) ++
      (if avg_quality < 60 then [Recommendation.lowQuality] else []) ++
      (if max_flaky > 0 then [Recommendation.fixFlaky max_flaky] else []) ++
      (if coverage_trend < -5 then [Recommendation.coverageDeclining] else []) ++
      (if quality_trend < -10 then [Recommendation.qualityDeclining] else [])
    some { avg_coverage := avg_coverage
           avg_quality := avg_quality
           max_flaky := max_flaky
           coverage_trend := coverage_trend
           quality_trend := quality_trend
           latest_coverage := last1.coverage.getD 0
           latest_quality := last1.quality_score.getD 0
           latest_flaky := last1.flaky_count.getD 0
           recommendations := recommendations }

/-- Outcome of `open(trend_file)` followed by `json.load`: either the
file is missing/unparsable (an exception) or it yields a trend list. -/
inductive ReadResult where
  | failure
  | ok (trends : List TrendPoint)

/-- Observable side effects of one call to `visualize_trends`:
whether the output directory was created, whether the
`No trend data available` notice was printed, whether the PNG chart was
saved, the contents of the markdown summary (if written), and whether
the call terminated by raising an exception. -/
structure VisEffects where
  dirCreated : Bool
  noticePrinted : Bool
  chartSaved : Bool
  summaryWritten : Option SummaryStats
  raised : Bool
  deriving DecidableEq

/-- The `visualize_trends` function (lines 14-92): line 18 creates the
output directory (`parents=True, exist_ok=True`) before line 21 opens
the trend file, so the directory exists in every outcome.  A read
failure propagates (lines 21-22) with no further effect; an empty
history prints the notice and returns (lines 24-26); otherwise the
charts are rendered and saved and `generate_summary_stats` runs
(lines 28-92).  The chart phase is modelled only by its effect
(`chartSaved`); timestamp parsing on line 29 is assumed to succeed. -/
def visualize_trends (read : ReadResult) : VisEffects :=
  match read with
  | ReadResult.failure =>
      { dirCreated := true, noticePrinted := false, chartSaved := false,
        summaryWritten := none, raised := true }
  | ReadResult.ok trends =>
      if trends.isEmpty then
        { dirCreated := true, noticePrinted := true, chartSaved := false,
          summaryWritten := none, raised := false }
      else
        { dirCreated := true, noticePrinted := false, chartSaved := true,
          summaryWritten := generate_summary_stats trends, raised := false }

/-- Observable side effects of running `visualize_test_trends.py` as a
script: whether the process died with an uncaught `ImportError` during
module initialization, whether the
`Warning: matplotlib not installed. Install with: pip install matplotlib`
message was printed, the effects of `visualize_trends` when it ran, and
the summary written by the `except ImportError` fallback branch. -/
structure ScriptEffects where
  importAborted : Bool
  warningPrinted : Bool
  run : Option VisEffects
  fallbackSummary : Option (Option SummaryStats)
  deriving DecidableEq

/-- The `__main__` behaviour of `visualize_test_trends.py` (lines
155-175) as a function of whether matplotlib is importable.  When it is
not, line 9 (`import matplotlib.pyplot as plt`) raises `ImportError`
while the module body is executing — before the `if __name__ ==
'__main__'` block and its `try/except ImportError` (lines 164-175) are
ever reached — so the process aborts.  When matplotlib is importable,
`visualize_trends` contains no `import` statement and raises no
`ImportError`, so the `except` branch (lines 166-175) never runs. -/
def script_main (matplotlibAvailable : Bool) (read : ReadResult) : ScriptEffects :=
  if matplotlibAvailable then
    { importAborted := false, warningPrinted := false,
      run := some (visualize_trends read), fallbackSummary := none }
  else
    { importAborted := true, warningPrinted := false,
      run := none, fallbackSummary := none }

/-- Concrete trend point with only a coverage value (other metric keys
absent, hence read as 0 by the `.get(k, 0)` accesses). -/
def covPoint (c : ℚ) : TrendPoint :=
  ⟨some "2024-01-01T00:00:00Z", some c, none, none, none⟩

/-- Concrete trend point with coverage 80 and the given quality score. -/
def qualPoint (q : ℚ) : TrendPoint :=
  ⟨some "2024-01-01T00:00:00Z", some 80, some q, none, none⟩

/-- Concrete trend point with coverage and quality 80 and the given
flaky count. -/
def flakyPoint (f : ℤ) : TrendPoint :=
  ⟨some "2024-01-01T00:00:00Z", some 80, some 80, none, some f⟩

/-- Concrete TestTypes dictionary whose `unit_test_files` key is absent
and whose other counts are 0. -/
def testTypesNoUnit : TestTypes :=
  ⟨none, some 0, some 0, some 0, some 0, some 0⟩

/-- The summary statistics of the two-point history
`[flakyPoint 5, flakyPoint 0]`, computed by hand: the averaging window
is both points, so the flaky maximum is 5 while the latest count is 0. -/
def statsExample : SummaryStats :=
  { avg_coverage := 80, avg_quality := 80, max_flaky := 5,
    coverage_trend := 0, quality_trend := 0,
    latest_coverage := 80, latest_quality := 80, latest_flaky := 0,
    recommendations := [Recommendation.fixFlaky 5] }

section Lemmas

/-- Bind on `Except` with a failing first component fails. -/
theorem error_bind {ε α β : Type} (e : ε) (f : α → Except ε β) :
    (Except.error e : Except ε α) >>= f = Except.error e := rfl

/-- Bind on `Except` with a succeeding first component applies the
continuation. -/
theorem ok_bind {ε α β : Type} (a : α) (f : α → Except ε β) :
    (Except.ok a : Except ε α) >>= f = f a := rfl

/-- Pure on `Except` is `Except.ok`. -/
theorem pure_eq_ok {ε α : Type} (a : α) : (pure a : Except ε α) = Except.ok a := rfl

/-- The Python slice `l[-n:]` is a suffix of `l`. -/
theorem lastN_suffix {α : Type} (n : Nat) (l : List α) : lastN n l <:+ l :=
  List.drop_suffix _ _

/-- The Python slice `l[-n:]` has `min n l.length` elements. -/
theorem length_lastN {α : Type} (n : Nat) (l : List α) :
    (lastN n l).length = min n l.length := by
  simp [lastN]
  omega

/-- The coverage chart series has one value per selected trend point. -/
theorem length_coverage_trend_series (trends : List TrendPoint) :
    (coverage_trend_series trends).length = (lastN 10 trends).length :=
  List.length_map _ _

/-- The quality chart series has one value per selected trend point. -/
theorem length_quality_trend_series (trends : List TrendPoint) :
    (quality_trend_series trends).length = (lastN 10 trends).length :=
  List.length_map _ _

/-- Inversion for the label comprehension: when every selected point has
a timestamp the labels are the first ten characters of each. -/
theorem mapM_labels_eq : ∀ (l : List TrendPoint) (ls : List String),
    l.mapM labelOf = Except.ok ls →
      ls = l.map fun t => (t.timestamp.getD "").take 10 := by
  intro l
  induction l with
  | nil =>
    intro ls h
    rw [List.mapM_nil] at h
    cases h
    rfl
  | cons a l ih =>
    intro ls h
    rw [List.mapM_cons] at h
    cases hts : a.timestamp with
    | none =>
      rw [show labelOf a = Except.error "KeyError" from
            by simp [labelOf, hts, getKey, error_bind],
          error_bind] at h
      exact Except.noConfusion h
    | some ts =>
      rw [show labelOf a = Except.ok (ts.take 10) from
            by simp [labelOf, hts, getKey, ok_bind, pure_eq_ok],
          ok_bind] at h
      cases hm : l.mapM labelOf with
      | error e =>
        rw [hm, error_bind] at h
        exact Except.noConfusion h
      | ok xs =>
        rw [hm, ok_bind] at h
        cases h
        simp [hts, ih xs hm]

instance : IsTotal PackageCov (fun a b => b.coverage ≤ a.coverage) :=
  ⟨fun a b => le_total b.coverage a.coverage⟩

instance : IsTrans PackageCov (fun a b => b.coverage ≤ a.coverage) :=
  ⟨fun _ _ _ h h2 => le_trans h2 h⟩

end Lemmas

/-- C1: the claim says that when matplotlib is unavailable the script
still produces the markdown summary and prints the install-hint
warning.  The code disagrees: the module-level import on line 9 raises
before the `__main__` try/except is reached, so the run aborts with no
warning printed, no fallback summary and `visualize_trends` never
called — for every possible trend-file content. -/
theorem script_main_matplotlib_missing_aborts (read : ReadResult) :
    script_main false read =
      { importAborted := true, warningPrinted := false,
        run := none, fallbackSummary := none } := rfl

/-- C3: `get_score_color` maps scores of at least 80 to the good color,
scores in [60, 80) to the warning color and scores below 60 to the bad
color; in particular 80 is good, 60 is warning and 59.9 is bad. -/
theorem score_color_spec :
    (∀ s : ℚ, 80 ≤ s → get_score_color s = "#4caf50") ∧
    (∀ s : ℚ, 60 ≤ s → s < 80 → get_score_color s = "#ff9800") ∧
    (∀ s : ℚ, s < 60 → get_score_color s = "#f44336") ∧
    get_score_color 80 = "#4caf50" ∧
    get_score_color 60 = "#ff9800" ∧
    get_score_color (599/10 : ℚ) = "#f44336" := by
  refine ⟨fun s hs => ?_, fun s h1 h2 => ?_, fun s h3 => ?_, ?_, ?_, ?_⟩
  · rw [get_score_color, if_pos hs]
  · rw [get_score_color, if_neg (by exact not_le.mpr h2), if_pos h1]
  · rw [get_score_color, if_neg (by exact not_le.mpr (by linarith)),
      if_neg (by exact not_le.mpr h3)]
  · norm_num [get_score_color]
  · norm_num [get_score_color]
  · norm_num [get_score_color]

/-- Witness for C3 at the concrete scores 85, 70 and 59. -/
theorem score_color_witness :
    get_score_color 85 = "#4caf50" ∧ get_score_color 70 = "#ff9800" ∧
    get_score_color 59 = "#f44336" :=
  ⟨score_color_spec.1 85 (by norm_num),
   score_color_spec.2.1 70 (by norm_num) (by norm_num),
   score_color_spec.2.2.1 59 (by norm_num)⟩

/-- C4: `get_flaky_class` maps a flaky count of 0 to `success`, counts 1
and 2 to `warning`, and counts of at least 3 to `error`. -/
theorem flaky_class_spec :
    get_flaky_class 0 = "success" ∧
    (∀ c : ℤ, 1 ≤ c → c ≤ 2 → get_flaky_class c = "warning") ∧
    (∀ c : ℤ, 3 ≤ c → get_flaky_class c = "error") := by
  refine ⟨rfl, fun c h1 h2 => ?_, fun c h3 => ?_⟩
  · rw [get_flaky_class, if_neg (by omega), if_pos h2]
  · rw [get_flaky_class, if_neg (by omega), if_neg (by omega)]

/-- Witness for C4 at the boundary counts 2 and 3. -/
theorem flaky_class_witness :
    get_flaky_class 2 = "warning" ∧ get_flaky_class 3 = "error" :=
  ⟨flaky_class_spec.2.1 2 (by norm_num) (by norm_num),
   flaky_class_spec.2.2 3 (by norm_num)⟩

/-- C5: the package table has at most 10 rows, the rows are ordered by
coverage descending, and packages with coverages [10, 90, 50] are
rendered in the order [90, 50, 10]. -/
theorem package_rows_spec :
    (∀ packages : List PackageCov, (generate_package_rows packages).length ≤ 10) ∧
    (∀ packages : List PackageCov,
      List.Sorted (fun a b : PackageRow => b.coverage ≤ a.coverage)
        (generate_package_rows packages)) ∧
    (generate_package_rows
        [⟨"a", 10, 1, none⟩, ⟨"b", 90, 2, none⟩, ⟨"c", 50, 3, none⟩]).map
      PackageRow.coverage = [90, 50, 10] := by
  refine ⟨fun packages => ?_, fun packages => ?_, ?_⟩
  · rw [generate_package_rows, List.length_map]
    exact List.length_take_le _ _
  · rw [generate_package_rows, List.Sorted, List.pairwise_map]
    exact List.Pairwise.sublist (List.take_sublist _ _)
      (List.sorted_insertionSort _ _)
  · norm_num [generate_package_rows, List.insertionSort, List.orderedInsert]

/-- C10: the output directory is created before the trend file is read:
it exists in every outcome; a missing/unparsable trend file terminates
the run with the directory creation as its only side effect; an empty
history prints the notice and does nothing else. -/
theorem visualize_trends_effects_spec :
    (∀ read : ReadResult, (visualize_trends read).dirCreated = true) ∧
    visualize_trends ReadResult.failure =
      { dirCreated := true, noticePrinted := false, chartSaved := false,
        summaryWritten := none, raised := true } ∧
    visualize_trends (ReadResult.ok []) =
      { dirCreated := true, noticePrinted := true, chartSaved := false,
        summaryWritten := none, raised := false } := by
  refine ⟨fun read => ?_, rfl, rfl⟩
  cases read with
  | failure => rfl
  | ok trends =>
    rw [visualize_trends]
    split <;> rfl

/-- C2 counterexample: the claim says an absent numeric field is treated
as 0, but for the MetricsSnapshot count `unit_test_files` the renderer
signals a key-lookup failure instead of producing the all-zero rows. -/
theorem numeric_default_counterexample :
    generate_test_type_rows testTypesNoUnit = Except.error "KeyError" ∧
    generate_test_type_rows testTypesNoUnit ≠
      Except.ok [("Unit Tests", 0), ("Integration Tests", 0), ("E2E Tests", 0),
                 ("Benchmarks", 0), ("Examples", 0)] :=
  ⟨rfl, fun h => Except.noConfusion h⟩

/-- C2 amended: trend-point numeric fields read by the Dashboard
Renderer default to 0 when absent, while MetricsSnapshot numeric fields
are required keys whose absence surfaces as a key-lookup failure. -/
theorem numeric_field_access_spec :
    (∀ tt : TestTypes, tt.unit_test_files = none →
      generate_test_type_rows tt = Except.error "KeyError") ∧
    (∀ (metrics : Metrics) (trends : List TrendPoint),
      metrics.coverage.average = none →
      generate_dashboard metrics trends = Except.error "KeyError") ∧
    (∀ (trends : List TrendPoint) (i : Fin (coverage_trend_series trends).length),
      ((lastN 10 trends).get
          (Fin.cast (length_coverage_trend_series trends) i)).coverage = none →
      (coverage_trend_series trends).get i = 0) ∧
    (∀ (trends : List TrendPoint) (i : Fin (quality_trend_series trends).length),
      ((lastN 10 trends).get
          (Fin.cast (length_quality_trend_series trends) i)).quality_score = none →
      (quality_trend_series trends).get i = 0) := by
  refine ⟨fun tt h => ?_, fun metrics trends h => ?_,
    fun trends i h => ?_, fun trends i h => ?_⟩
  · rw [generate_test_type_rows, h]
    rfl
  · rw [generate_dashboard, h]
    rfl
  · simp only [List.get_eq_getElem, Fin.coe_cast] at h
    simp only [coverage_trend_series, List.get_eq_getElem, List.getElem_map]
    rw [h]
    rfl
  · simp only [List.get_eq_getElem, Fin.coe_cast] at h
    simp only [quality_trend_series, List.get_eq_getElem, List.getElem_map]
    rw [h]
    rfl

/-- Witness for C2 at the concrete TestTypes value missing its
`unit_test_files` key. -/
theorem numeric_field_access_witness :
    generate_test_type_rows testTypesNoUnit = Except.error "KeyError" :=
  numeric_field_access_spec.1 testTypesNoUnit rfl

/-- C6: the dashboard's chart data comes from the last at-most-10 trend
points, kept in their original (chronological) order as a suffix of the
history; each x-axis label is the first 10 characters of the point's
timestamp; the two series are the default-0 coverage and quality values
of exactly those points. -/
theorem trend_chart_spec :
    (∀ trends : List TrendPoint,
      lastN 10 trends <:+ trends ∧ (lastN 10 trends).length ≤ 10) ∧
    (∀ (trends : List TrendPoint) (ls : List String),
      trend_labels trends = Except.ok ls →
      ls = (lastN 10 trends).map fun t => (t.timestamp.getD "").take 10) ∧
    (∀ trends : List TrendPoint,
      coverage_trend_series trends =
        (lastN 10 trends).map (fun t => t.coverage.getD 0) ∧
      quality_trend_series trends =
        (lastN 10 trends).map (fun t => t.quality_score.getD 0)) := by
  refine ⟨fun trends => ⟨lastN_suffix _ _, ?_⟩,
    fun trends ls h => mapM_labels_eq _ _ h, fun trends => ⟨rfl, rfl⟩⟩
  rw [length_lastN]
  exact min_le_left _ _

/-- Witness for C6: the single point with timestamp
`2024-01-01T00:00:00Z` is labelled by its first 10 characters. -/
theorem trend_chart_witness :
    ["2024-01-01"] =
      (lastN 10 [covPoint 80]).map fun t => (t.timestamp.getD "").take 10 :=
  trend_chart_spec.2.1 [covPoint 80] ["2024-01-01"] rfl

/-- C7: no summary is produced for histories shorter than 2 points; for
longer histories the reported deltas are the last point's value minus
the second-to-last point's value, and the two-point history with
coverages [80, 70] reports a coverage delta of -10. -/
theorem summary_delta_spec :
    (∀ trends : List TrendPoint, trends.length < 2 →
      generate_summary_stats trends = none) ∧
    (∀ (l : List TrendPoint) (q p : TrendPoint),
      (generate_summary_stats (l ++ [q, p])).map SummaryStats.coverage_trend =
        some (p.coverage.getD 0 - q.coverage.getD 0) ∧
      (generate_summary_stats (l ++ [q, p])).map SummaryStats.quality_trend =
        some (p.quality_score.getD 0 - q.quality_score.getD 0)) ∧
    (generate_summary_stats [covPoint 80, covPoint 70]).map
      SummaryStats.coverage_trend = some (-10) := by
  have part2 : ∀ (l : List TrendPoint) (q p : TrendPoint),
      (generate_summary_stats (l ++ [q, p])).map SummaryStats.coverage_trend =
        some (p.coverage.getD 0 - q.coverage.getD 0) ∧
      (generate_summary_stats (l ++ [q, p])).map SummaryStats.quality_trend =
        some (p.quality_score.getD 0 - q.quality_score.getD 0) := by
    intro l q p
    have e : l ++ [q, p] = (l ++ [q]) ++ [p] := by simp
    have hlen : ¬ ((l ++ [q]) ++ [p]).length < 2 := by
      simp [List.length_append]
    rw [e]
    constructor <;>
      · rw [generate_summary_stats, if_neg hlen]
        simp [List.getLast?_concat, List.dropLast_concat]
  refine ⟨fun trends h => ?_, part2, ?_⟩
  · rw [generate_summary_stats, if_pos h]
  · have h70 := (part2 [] (covPoint 80) (covPoint 70)).1
    rw [List.nil_append] at h70
    rw [h70]
    norm_num [covPoint]

/-- Witness for C7 at the empty history. -/
theorem summary_delta_witness : generate_summary_stats [] = none :=
  summary_delta_spec.1 [] (by decide)

/-- C8: for histories with at least 2 points the averages are the
arithmetic means over the window of the last 7 points (all points when
fewer), and the 7-point window with quality scores
[50, 55, 60, 65, 70, 75, 80] averages to exactly 65. -/
theorem summary_avg_spec :
    (∀ trends : List TrendPoint, 2 ≤ trends.length →
      (generate_summary_stats trends).map SummaryStats.avg_coverage =
        some (((lastN 7 trends).map fun t => t.coverage.getD 0).sum /
          ((min 7 trends.length : ℕ) : ℚ)) ∧
      (generate_summary_stats trends).map SummaryStats.avg_quality =
        some (((lastN 7 trends).map fun t => t.quality_score.getD 0).sum /
          ((min 7 trends.length : ℕ) : ℚ)) ∧
      (lastN 7 trends).length = min 7 trends.length) ∧
    (generate_summary_stats [qualPoint 50, qualPoint 55, qualPoint 60, qualPoint 65,
        qualPoint 70, qualPoint 75, qualPoint 80]).map SummaryStats.avg_quality =
      some 65 := by
  refine ⟨fun trends h => ?_, ?_⟩
  · have hlen : ¬ trends.length < 2 := by omega
    refine ⟨?_, ?_, length_lastN _ _⟩ <;>
      · rw [generate_summary_stats, if_neg hlen]
        simp [length_lastN]
  · norm_num [generate_summary_stats, lastN, qualPoint]

/-- Witness for C8 at a concrete two-point history. -/
theorem summary_avg_witness :
    (generate_summary_stats [covPoint 80, covPoint 70]).map
        SummaryStats.avg_coverage =
      some (((lastN 7 [covPoint 80, covPoint 70]).map
          fun t => t.coverage.getD 0).sum /
        ((min 7 (List.length [covPoint 80, covPoint 70]) : ℕ) : ℚ)) :=
  (summary_avg_spec.1 [covPoint 80, covPoint 70] (by decide)).1

/-- C9: the `Fix N flaky tests` recommendation appears in the summary
exactly when the maximum flaky count over the averaging window is
positive, and N is that window maximum; on the history with flaky
counts [5, 0] the recommendation reports 5 although the latest point
has 0. -/
theorem flaky_recommendation_spec :
    (∀ (trends : List TrendPoint) (s : SummaryStats),
      generate_summary_stats trends = some s →
      s.max_flaky =
        (((lastN 7 trends).map fun t => t.flaky_count.getD 0).max?).getD 0 ∧
      ∀ n : ℤ, Recommendation.fixFlaky n ∈ s.recommendations ↔
        0 < s.max_flaky ∧ n = s.max_flaky) ∧
    (generate_summary_stats [flakyPoint 5, flakyPoint 0]).map
      SummaryStats.recommendations = some [Recommendation.fixFlaky 5] ∧
    (generate_summary_stats [flakyPoint 5, flakyPoint 0]).map
      SummaryStats.latest_flaky = some 0 := by
  refine ⟨fun trends s h => ?_, ?_, ?_⟩
  · rw [generate_summary_stats] at h
    split at h
    · exact Option.noConfusion h
    · simp only [Option.some.injEq] at h
      subst h
      refine ⟨rfl, fun n => ?_⟩
      simp only [List.mem_append]
      split_ifs with c1 c2 c3 c4 c5 <;> simp_all
  · norm_num [generate_summary_stats, lastN, flakyPoint]
  · norm_num [generate_summary_stats, lastN, flakyPoint]

/-- Witness for C9: applying the specification to the [5, 0] history
with its hand-computed summary shows the recommendation carries the
window maximum 5. -/
theorem flaky_recommendation_witness :
    Recommendation.fixFlaky 5 ∈ statsExample.recommendations :=
  ((flaky_recommendation_spec.1 [flakyPoint 5, flakyPoint 0] statsExample
      (by norm_num [generate_summary_stats, lastN, flakyPoint, statsExample])).2 5).mpr
    (by norm_num [statsExample])

end Qualhook
